import Mathlib

/-!
Shallow embedding of the FundingRateArbTrader core (src/trader/app) in Lean 4,
together with theorems settling the specification claims about it.

The embedding models, faithfully to the Python source:
* the persistence enums and records of `app/db_models.py`,
* `ArbService.close_position` and the dual-leg open flow of `open_arb_position`,
* `_close_position_with_reduce_only_orders` (the reduce-only close flow),
* the guard predicates of `funding_settlement_guard_worker` and
  `liquidation_guard_worker`,
* the volume filter, EWMA smoothing and recommendation scoring of
  `market_data_service.py`, and
* the incremental order-book merge of `lighter_service.py`.

Python floats are modelled as `ℚ` where the code only uses field arithmetic
and comparisons, and as `ℝ` where transcendental functions (`0.5 ** x`,
`math.exp`) appear.  Python truthiness on floats/strings (`x or y`, `if price:`)
is modelled explicitly wherever the code relies on it.
-/

namespace ArbTrader

/-- db_models.ArbPositionStatus: the seven-value position status enum. -/
inductive ArbPositionStatus where
  | idle
  | pending
  | partially_filled
  | hedged
  | exiting
  | closed
  | failed
deriving DecidableEq, Repr

/-- The `.value` string of an ArbPositionStatus member. -/
def ArbPositionStatus.value : ArbPositionStatus → String
  | .idle => "idle"
  | .pending => "pending"
  | .partially_filled => "partially_filled"
  | .hedged => "hedged"
  | .exiting => "exiting"
  | .closed => "closed"
  | .failed => "failed"

/-- db_models.RiskTaskType. -/
inductive RiskTaskType where
  | auto_close
  | liquidation_guard
deriving DecidableEq, Repr

/-- db_models.RiskTaskStatus. -/
inductive RiskTaskStatus where
  | pending
  | triggered
  | canceled
  | failed
deriving DecidableEq, Repr

/-- db_models.OrderStatus. -/
inductive OrderStatus where
  | sent
  | accepted
  | rejected
  | failed
deriving DecidableEq, Repr

/-- db_models.ArbPosition, restricted to the fields the orchestration flows
read or write.  Timestamps are epoch milliseconds as `ℚ`. -/
structure ArbPosition where
  symbol : String
  left_venue : String
  right_venue : String
  left_side : String
  right_side : String
  notional : ℚ
  status : ArbPositionStatus
  closed_at : Option ℚ
  updated_at : ℚ
  deleted_at : Option ℚ
deriving DecidableEq, Repr

/-- db_models.RiskTask, restricted to the fields the guard loops use. -/
structure RiskTask where
  task_type : RiskTaskType
  enabled : Bool
  threshold_pct : Option ℚ
  triggered_at : Option ℚ
  status : RiskTaskStatus
  trigger_reason : Option String
  deleted_at : Option ℚ
deriving DecidableEq, Repr

/-- The request payload stored on an OrderLog row: the open flow stores the
full order dump on success and a minimal symbol/side/size/price dict on
failure (main.py `place_for_venue`). -/
inductive RequestPayload where
  | fullRequest (dump : String)
  | minimalRequest (symbol side : String) (size price : ℚ)
deriving DecidableEq, Repr

/-- The response payload stored on an OrderLog row: the venue response dump on
success, or a dict carrying the stringified exception on failure. -/
inductive ResponsePayload where
  | venueResponse (dump : String)
  | errorMessage (msg : String)
deriving DecidableEq, Repr

/-- db_models.OrderLog, restricted to the fields the open flow writes. -/
structure OrderLog where
  venue : String
  side : String
  price : ℚ
  size : ℚ
  reduce_only : Bool
  request_payload : RequestPayload
  response_payload : ResponsePayload
  status : OrderStatus
deriving DecidableEq, Repr

/-- ArbService.close_position (services/arb_service.py lines 62-72): the
manual close endpoint body.  It unconditionally marks the position closed and
stamps `closed_at` / `updated_at`; the response reports the new status value.
There is no check of the current status. -/
def ArbService.close_position (pos : ArbPosition) (now : ℚ) : ArbPosition × String :=
  let pos2 := { pos with
    status := ArbPositionStatus.closed
    closed_at := some now
    updated_at := now }
  (pos2, pos2.status.value)

/-- models.ArbOpenRequest, restricted to the fields the open flow uses. -/
structure ArbOpenRequest where
  symbol : String
  left_venue : String
  right_venue : String
  left_side : String
  right_side : String
  left_price : ℚ
  right_price : ℚ
  left_size : ℚ
  right_size : ℚ
deriving DecidableEq, Repr

/-- Outcome of one venue leg placement: `.ok dump` is the venue response
(`response.model_dump()`), `.error msg` the stringified raised exception. -/
abbrev LegOutcome := Except String String

/-- main.py `place_for_venue` inside `open_arb_position` (lines 911-998):
places one leg and records exactly one OrderLog row.  On success the row is
`accepted` with the full request dump (`requestDump`, the order model dump)
and the response dump; on a raised exception the row is `failed` with a
minimal request dict and the error string in the response payload. -/
def place_for_venue (symbol venue side : String) (price size : ℚ)
    (requestDump : String) (outcome : LegOutcome) : Bool × OrderLog :=
  match outcome with
  | .ok resp =>
      (true,
        { venue := venue
          side := side
          price := price
          size := size
          reduce_only := false
          request_payload := RequestPayload.fullRequest requestDump
          response_payload := ResponsePayload.venueResponse resp
          status := OrderStatus.accepted })
  | .error e =>
      (false,
        { venue := venue
          side := side
          price := price
          size := size
          reduce_only := false
          request_payload := RequestPayload.minimalRequest symbol side size price
          response_payload := ResponsePayload.errorMessage e
          status := OrderStatus.failed })

/-- main.py `open_arb_position` (lines 865-1031), from the point where both
legs are placed concurrently: each leg appends exactly one OrderLog row, and
the final committed status is derived from the two leg outcomes
(both ok → pending, exactly one ok → partially_filled, none → failed).
Returns the committed position and the appended OrderLog rows in leg order. -/
def open_arb_position (req : ArbOpenRequest) (pos : ArbPosition)
    (leftDump rightDump : String) (leftOutcome rightOutcome : LegOutcome)
    (now : ℚ) : ArbPosition × List OrderLog :=
  let left := place_for_venue req.symbol req.left_venue req.left_side
    req.left_price req.left_size leftDump leftOutcome
  let right := place_for_venue req.symbol req.right_venue req.right_side
    req.right_price req.right_size rightDump rightOutcome
  let st :=
    if left.1 && right.1 then ArbPositionStatus.pending
    else if left.1 || right.1 then ArbPositionStatus.partially_filled
    else ArbPositionStatus.failed
  ({ pos with status := st, updated_at := now }, [left.2, right.2])

/-- Venue-side market state the reduce-only close flow fetches before
submitting: the signed size of the matching venue position (none when the
venue reports no position for the symbol) and the best bid/ask of the venue
(none when absent from the snapshot). -/
structure VenueCloseInputs where
  lighter_position : Option ℚ
  lighter_best_bid : Option ℚ
  lighter_best_ask : Option ℚ
  grvt_position : Option ℚ
  grvt_best_bid : Option ℚ
  grvt_best_ask : Option ℚ
deriving DecidableEq, Repr

/-- A reduce-only order the close flow decides to submit. -/
structure CloseOrder where
  venue : String
  side : String
  price : ℚ
  size : ℚ
deriving DecidableEq, Repr

/-- Python truthiness of an optional float price (`if price:`):
`None` and `0.0` are falsy. -/
def truthy_price : Option ℚ → Option ℚ
  | none => none
  | some p => if p = 0 then none else some p

/-- The contribution of one venue to the reduce-only order list
(main.py lines 314-351): submit only when the venue has a non-zero open
position and a truthy defensive price; the side is the opposite of the open
sign of the open position, the price is the bid for a buy and the ask for a
sell. -/
def close_orders_for_venue (venue : String) (position : Option ℚ)
    (best_bid best_ask : Option ℚ) : List CloseOrder :=
  match position with
  | none => []
  | some sz =>
      if |sz| > 0 then
        let side := if sz ≥ 0 then "sell" else "buy"
        let priceOpt := if side = "buy" then best_bid else best_ask
        match truthy_price priceOpt with
        | some p => [{ venue := venue, side := side, price := p, size := |sz| }]
        | none => []
      else []

/-- The reduce-only order list the close flow builds (lighter first,
then grvt, as in the source). -/
def build_close_orders (inputs : VenueCloseInputs) : List CloseOrder :=
  close_orders_for_venue "lighter" inputs.lighter_position
    inputs.lighter_best_bid inputs.lighter_best_ask
  ++ close_orders_for_venue "grvt" inputs.grvt_position
    inputs.grvt_best_bid inputs.grvt_best_ask

/-- The dict returned by `_close_position_with_reduce_only_orders`. -/
structure CloseResult where
  failed_reasons : List String
  closed : Bool
deriving DecidableEq, Repr

/-- main.py line 379: `failed_reasons = [f"{venue}: {err}" for venue, ok, err
in results if not ok and err]` — note that a failure whose error string is
empty is not collected, because the empty string is falsy. -/
def close_failed_reasons (inputs : VenueCloseInputs)
    (placeOutcome : String → Option String) : List String :=
  (build_close_orders inputs).filterMap fun o =>
    match placeOutcome o.venue with
    | some err => if err ≠ "" then some (o.venue ++ ": " ++ err) else none
    | none => none

/-- main.py `_close_position_with_reduce_only_orders` (lines 259-390).
`snapshotError` models an exception out of the credential/balance/price
prefetch; `placeOutcome venue` is `none` when the venue order succeeds and
`some err` (the `str(exc)` of the raised exception, possibly empty) when it
fails.  Mirrors the source: an inactive position short-circuits with
"position inactive"; an empty order list reports "no positions or price";
`failed_reasons` collects `venue: err` for failures with non-empty `err`
(`if not ok and err`); the position moves to `exiting` only when
`failed_reasons` is empty, re-checking that the status is still active.
The flow inserts no OrderLog rows; the third component is the list of
OrderLog inserts it performs (always empty, as in the source).
The "position not found" / "user not found" branches, which also leave all
state unchanged, are not modelled because every claim quantifies over an
existing position and user. -/
def close_position_with_reduce_only_orders (pos : ArbPosition)
    (snapshotError : Option String) (inputs : VenueCloseInputs)
    (placeOutcome : String → Option String) (now : ℚ) :
    CloseResult × ArbPosition × List OrderLog :=
  if pos.status = ArbPositionStatus.closed ∨ pos.status = ArbPositionStatus.failed then
    ({ failed_reasons := ["position inactive"], closed := false }, pos, [])
  else
    match snapshotError with
    | some e =>
        ({ failed_reasons := ["snapshot error: " ++ e], closed := false }, pos, [])
    | none =>
        let orders := build_close_orders inputs
        if orders = [] then
          ({ failed_reasons := ["no positions or price"], closed := false }, pos, [])
        else
          let failed_reasons := close_failed_reasons inputs placeOutcome
          if failed_reasons ≠ [] then
            ({ failed_reasons := failed_reasons, closed := false }, pos, [])
          else
            let pos2 :=
              if pos.status = ArbPositionStatus.closed ∨ pos.status = ArbPositionStatus.failed
              then pos
              else { pos with status := ArbPositionStatus.exiting, updated_at := now }
            ({ failed_reasons := [], closed := true }, pos2, [])

/-- Statuses the settlement and liquidation guard workers select positions by
(main.py lines 410-417 and 504-512): pending, partially_filled, hedged. -/
def guard_active_statuses : List ArbPositionStatus :=
  [ArbPositionStatus.pending, ArbPositionStatus.partially_filled,
   ArbPositionStatus.hedged]

/-- The candidate filter of the guard workers: not soft-deleted and status among
the active statuses. -/
def guard_selects_position (pos : ArbPosition) : Prop :=
  pos.deleted_at = none ∧ pos.status ∈ guard_active_statuses

instance (pos : ArbPosition) : Decidable (guard_selects_position pos) := by
  unfold guard_selects_position
  infer_instance

/-- main.py SETTLEMENT_GUARD_WINDOW_MINUTES. -/
def SETTLEMENT_GUARD_WINDOW_MINUTES : Nat := 5

/-- main.py `_is_settlement_guard_window` (lines 393-394): true in the last
`SETTLEMENT_GUARD_WINDOW_MINUTES` minutes of each clock hour.  `minute` is
`now.minute`, so `minute < 60`. -/
def is_settlement_guard_window (minute : Nat) : Bool :=
  decide (minute ≥ 60 - SETTLEMENT_GUARD_WINDOW_MINUTES)

/-- Python `str.lower()` on ASCII side names, written through the character
list so that it evaluates by kernel reduction. -/
def str_to_lower (s : String) : String :=
  String.mk (s.toList.map Char.toLower)

/-- main.py `_funding_sign_for_side` (lines 234-240): lowercase the side;
buy → −1, sell → +1, anything else → 0. -/
def funding_sign_for_side (side : String) : ℚ :=
  let normalized := str_to_lower side
  if normalized = "buy" then -1
  else if normalized = "sell" then 1
  else 0

/-- main.py funding_settlement_guard_worker lines 460-464: the expected
next-hour funding PnL of a position given both hourly venue rates (in %). -/
def expected_hourly_pnl (pos : ArbPosition) (left_rate right_rate : ℚ) : ℚ :=
  pos.notional *
    ((funding_sign_for_side pos.left_side * left_rate
      + funding_sign_for_side pos.right_side * right_rate) / 100)

/-- main.py funding_settlement_guard_worker line 465: the guard skips the
position when `expected_hourly_pnl > 0` and invokes the close flow
otherwise. -/
def settlement_guard_invokes_close (pos : ArbPosition)
    (left_rate right_rate : ℚ) : Bool :=
  !decide (expected_hourly_pnl pos left_rate right_rate > 0)

/-- main.py liquidation_guard_worker line 521,
`float(task.threshold_pct or 50.0)`: Python `or` falls back to 50 for both
a missing and a zero threshold. -/
def liquidation_threshold_pct : Option ℚ → ℚ
  | none => 50
  | some v => if v = 0 then 50 else v

/-- main.py liquidation_guard_worker line 576: the absolute unrealized-PnL
ratio of the position, in percent of notional. -/
def pnl_ratio_pct (net_unrealized notional : ℚ) : ℚ :=
  |net_unrealized| / notional * 100

/-- main.py liquidation_guard_worker lines 521-581: the guard skips positions
with `notional <= 0`, sums the unrealized PnL of both venues (a missing venue
position counts 0), and invokes the close flow unless
`pnl_ratio_pct < threshold_pct`. -/
def liquidation_guard_triggers (pos : ArbPosition) (task : RiskTask)
    (lighter_unrealized grvt_unrealized : ℚ) : Bool :=
  let threshold_pct := liquidation_threshold_pct task.threshold_pct
  if pos.notional ≤ 0 then false
  else
    let net_unrealized := lighter_unrealized + grvt_unrealized
    !decide (pnl_ratio_pct net_unrealized pos.notional < threshold_pct)

/-- Python `f"{x:.2f}"` on a float, modelled on `ℚ`: round to the nearest
cent (ties away from exact representability do not occur at the inputs the
claims evaluate) and print with exactly two decimals. -/
def format_fixed2 (q : ℚ) : String :=
  let cents : ℤ := round (q * 100)
  let sign := if cents < 0 then "-" else ""
  let n := cents.natAbs
  let frac := n % 100
  sign ++ toString (n / 100) ++ "." ++ (if frac < 10 then "0" else "") ++ toString frac

/-- main.py liquidation_guard_worker lines 596-598: the trigger reason string
written on the task after a successful close. -/
def liquidation_trigger_reason (ratio threshold : ℚ) : String :=
  "unrealized pnl ratio " ++ format_fixed2 ratio
    ++ "% reached threshold " ++ format_fixed2 threshold ++ "%"

/-- main.py liquidation_guard_worker lines 591-600: after a successful close
the task, if still pending, becomes triggered with the trigger reason. -/
def liquidation_guard_mark_triggered (task : RiskTask)
    (ratio threshold : ℚ) (now : ℚ) : RiskTask :=
  if task.status = RiskTaskStatus.pending then
    { task with
      status := RiskTaskStatus.triggered
      triggered_at := some now
      trigger_reason := some (liquidation_trigger_reason ratio threshold) }
  else task

/-- Does `needle` occur at the head of `hay`? -/
def leads_chars : List Char → List Char → Bool
  | [], _ => true
  | _ :: _, [] => false
  | a :: ta, b :: tb => a == b && leads_chars ta tb

/-- Does `needle` occur contiguously anywhere inside `hay`? -/
def occurs_chars (needle : List Char) : List Char → Bool
  | [] => needle.isEmpty
  | b :: tb => leads_chars needle (b :: tb) || occurs_chars needle tb

/-- Substring occurrence on strings (via their character lists). -/
def str_occurs_in (needle hay : String) : Bool :=
  occurs_chars needle.toList hay.toList

/-- market_data_service.get_funding_prediction_snapshot line 790:
`volume_cutoff = max(volume_threshold, 0.0)`. -/
def volume_cutoff (volume_threshold : ℚ) : ℚ := max volume_threshold 0

/-- market_data_service.get_funding_prediction_snapshot `_passes_volume`
(lines 794-800): with a non-positive cutoff every row passes; otherwise the
row passes when the sum of the left-venue day notional volume (a missing
value parses to 0) and the right-payload `volume_usd` (missing → 0) is at
least the cutoff. -/
def passes_volume (left_volume : ℚ) (right_volume : Option ℚ)
    (cutoff : ℚ) : Bool :=
  if cutoff ≤ 0 then true
  else decide (left_volume + right_volume.getD 0 ≥ cutoff)

/-- market_data_service.MS_PER_HOUR. -/
def MS_PER_HOUR : ℝ := 60 * 60 * 1000

/-- market_data_service.PREDICTION_HALF_LIFE_HOURS. -/
def PREDICTION_HALF_LIFE_HOURS : ℝ := 16

/-- Python float truthiness in `x or y`: yields `y` when `x == 0.0`. -/
noncomputable def py_or (x y : ℝ) : ℝ := if x = 0 then y else x

/-- One EWMA update of `get_funding_prediction_snapshot._compute_row`
(market_data_service.py lines 868-897), for a single series.  The state is
`(running ewma, time of last sample in ms)`; the first sample initialises the
ewma.  For a later sample at time `t` with value `v`:
`hours_delta = max((t - last)/MS_PER_HOUR, 0)`,
`decay = 0.5 ** (hours_delta / PREDICTION_HALF_LIFE_HOURS)`, and the new ewma
is `v * (1 - decay) + (ewma or v) * decay` — note the Python `or`, which
substitutes `v` when the running ewma is exactly 0.0. -/
noncomputable def ewma_step (state : Option (ℝ × ℝ)) (t v : ℝ) :
    Option (ℝ × ℝ) :=
  match state with
  | none => some (v, t)
  | some (e, last) =>
      let hours_delta := max ((t - last) / MS_PER_HOUR) 0
      let decay := (0.5 : ℝ) ^ (hours_delta / PREDICTION_HALF_LIFE_HOURS)
      some (v * (1 - decay) + py_or e v * decay, t)

/-- The EWMA of a full series of `(time in ms, value)` samples, as folded by
`_compute_row`; `none` when the series is empty. -/
noncomputable def ewma_series (points : List (ℝ × ℝ)) : Option ℝ :=
  (points.foldl (fun st p => ewma_step st p.1 p.2) none).map (·.1)

/-- market_data_service recommendation weights (lines 49-51). -/
def RECOMMENDATION_APR_WEIGHT : ℝ := 0.70

def RECOMMENDATION_FUNDING_VOLATILITY_WEIGHT : ℝ := 0.10

def RECOMMENDATION_PRICE_VOLATILITY_WEIGHT : ℝ := 0.10

/-- market_data_service spread sigmoid constants (lines 52-53). -/
def SPREAD_INTOLERABLE_BPS : ℝ := 15

def SPREAD_STEEPNESS_BPS : ℝ := 1.5

/-- market_data_service `_min_max_normalize` (lines 2001-2009): 0 on an empty
population; 0.5 when the population span is at most 1e-12; otherwise the
position of the value in the span clamped to [0, 1]. -/
noncomputable def min_max_normalize (value : ℝ) (population : List ℝ) : ℝ :=
  match population with
  | [] => 0
  | p :: ps =>
      let min_value := ps.foldl min p
      let max_value := ps.foldl max p
      let span := max_value - min_value
      if span ≤ 1e-12 then 0.5
      else min (max ((value - min_value) / span) 0) 1

/-- market_data_service `_compute_spread_acceptance_score` (lines 1983-1998):
a sigmoid of the spread around the intolerable threshold, clamped to [0, 1].
(The `math.isfinite` guard has no counterpart: every `ℝ` is finite.) -/
noncomputable def compute_spread_acceptance_score (spread_bps : ℝ) : ℝ :=
  let steepness_bps :=
    if SPREAD_STEEPNESS_BPS ≤ 0 then 1 else SPREAD_STEEPNESS_BPS
  let x := (spread_bps - SPREAD_INTOLERABLE_BPS) / steepness_bps
  let score := 1 / (1 + Real.exp x)
  min (max score 0) 1

/-- Python `round(x, 4)`, modelled with round-half-up; the bound claims are
insensitive to the tie-breaking convention, which only differs from the Python
round-half-even at exact half-way points. -/
noncomputable def round4 (x : ℝ) : ℝ := (round (x * 10000) : ℤ) / 10000

/-- The final scoring stage of `get_funding_prediction_snapshot`
(lines 1036-1062): min-max normalize the APR of the entry and the two volatility
factors across the candidate batch, weight them
(0.70 / 0.10 / 0.10, volatilities inverted), multiply by the product of both
spread acceptance scores of both legs and by 100, and round to 4 decimals. -/
noncomputable def recommendation_score
    (annualized_decimal spread_volatility price_volatility : ℝ)
    (left_spread_bps right_spread_bps : ℝ)
    (apr_values funding_volatility_values price_volatility_values : List ℝ) :
    ℝ :=
  let apr_norm := min_max_normalize annualized_decimal apr_values
  let funding_volatility_norm :=
    min_max_normalize spread_volatility funding_volatility_values
  let price_volatility_norm :=
    min_max_normalize price_volatility price_volatility_values
  let left_acceptance := compute_spread_acceptance_score left_spread_bps
  let right_acceptance := compute_spread_acceptance_score right_spread_bps
  let spread_acceptance_score := left_acceptance * right_acceptance
  let core_score :=
    RECOMMENDATION_APR_WEIGHT * apr_norm
    + RECOMMENDATION_FUNDING_VOLATILITY_WEIGHT * (1 - funding_volatility_norm)
    + RECOMMENDATION_PRICE_VOLATILITY_WEIGHT * (1 - price_volatility_norm)
  round4 (core_score * spread_acceptance_score * 100)

/-- One stored order-book level of the Lighter stream state: the venue sends
price and size as decimal strings; the merge matches levels by raw string
equality and orders them by parsed value.  `P` is the raw price
representation (string equality = `DecidableEq P`) and a valuation into `ℚ`
is supplied separately; sizes are kept as their parsed values. -/
structure RawLevel (P : Type) where
  price : P
  size : ℚ
deriving DecidableEq, Repr

/-- Replace the size of the first stored level whose raw price equals `p`;
the flag reports whether a match was found
(lighter_service._apply_lighter_updates lines 483-488). -/
def upsert_level {P : Type} [DecidableEq P] (p : P) (s : ℚ) :
    List (RawLevel P) → List (RawLevel P) × Bool
  | [] => ([], false)
  | e :: rest =>
      if e.price = p then ({ e with size := s } :: rest, true)
      else
        let r := upsert_level p s rest
        (e :: r.1, r.2)

/-- Apply one incoming level: upsert; when unmatched, append only if the
parsed size is positive (lighter_service lines 480-490). -/
def apply_new_order {P : Type} [DecidableEq P]
    (existing : List (RawLevel P)) (u : RawLevel P) : List (RawLevel P) :=
  let r := upsert_level u.price u.size existing
  if !r.2 && decide (u.size > 0) then r.1 ++ [u] else r.1

/-- The comparison `list.sort(key=parsed price, reverse=...)` uses: ascending
parsed price for asks, descending for bids (`reverse = true`). -/
def price_le {P : Type} (val : P → ℚ) (reverse : Bool)
    (a b : RawLevel P) : Bool :=
  if reverse then decide (val b.price ≤ val a.price)
  else decide (val a.price ≤ val b.price)

/-- lighter_service `_apply_lighter_updates` for one side (lines 476-498):
upsert every incoming level, drop levels with non-positive parsed size,
re-sort (stable, bids descending / asks ascending by parsed price), and
truncate the stored state to `depth_limit * 3` levels. -/
def apply_lighter_side_updates {P : Type} [DecidableEq P] (val : P → ℚ)
    (reverse : Bool) (depth_limit : Nat)
    (existing updates : List (RawLevel P)) : List (RawLevel P) :=
  let upserted := updates.foldl apply_new_order existing
  let filtered := upserted.filter fun e => decide (e.size > 0)
  let sorted := filtered.mergeSort (price_le val reverse)
  sorted.take (depth_limit * 3)

/-- One emitted order-book level with running cumulative size
(models.OrderBookLevel). -/
structure OrderBookLevel where
  price : ℚ
  size : ℚ
  total : ℚ
deriving DecidableEq, Repr

/-- The cumulative loop of `_build_lighter_side` (lines 532-538): walk the
ordered levels, skip non-positive prices or sizes, and attach the running
cumulative size to each emitted level. -/
def accumulate_levels : ℚ → List (ℚ × ℚ) → List OrderBookLevel
  | _, [] => []
  | cumulative, (p, s) :: rest =>
      if p ≤ 0 ∨ s ≤ 0 then accumulate_levels cumulative rest
      else
        { price := p, size := s, total := cumulative + s }
          :: accumulate_levels (cumulative + s) rest

/-- lighter_service `_build_lighter_side` (lines 517-540): sort the raw
levels (bids descending, asks ascending by parsed price), truncate to the
requested depth, then emit parsed levels with top-down cumulative sizes. -/
def build_lighter_side {P : Type} [DecidableEq P] (val : P → ℚ)
    (raw_levels : List (RawLevel P)) (depth : Nat) (reverse : Bool) :
    List OrderBookLevel :=
  let ordered := (raw_levels.mergeSort (price_le val reverse)).take depth
  accumulate_levels 0 (ordered.map fun e => (val e.price, e.size))

/-- The emitted levels carry correct running cumulative sizes starting from
`c`: the `total` of each level is the previous total plus its own size. -/
def totals_cumulative : ℚ → List OrderBookLevel → Prop
  | _, [] => True
  | c, l :: rest => l.total = c + l.size ∧ totals_cumulative l.total rest

/-- A concrete position whose open flow ended with `failed`. -/
def specimen_failed_position : ArbPosition :=
  { symbol := "BTC"
    left_venue := "lighter"
    right_venue := "grvt"
    left_side := "buy"
    right_side := "sell"
    notional := 1000
    status := ArbPositionStatus.failed
    closed_at := none
    updated_at := 0
    deleted_at := none }

/-- A concrete position already closed at time 1. -/
def specimen_closed_position : ArbPosition :=
  { specimen_failed_position with
    status := ArbPositionStatus.closed
    closed_at := some 1
    updated_at := 1 }

/-- A concrete active (pending) position. -/
def specimen_active_position : ArbPosition :=
  { specimen_failed_position with status := ArbPositionStatus.pending }

/-- A concrete active position with notional 10000. -/
def specimen_position_10000 : ArbPosition :=
  { specimen_active_position with notional := 10000 }

/-- Close-flow market inputs where only the lighter venue yields a
submittable leg: a long of size 1 with a live book, no grvt position. -/
def specimen_close_inputs_one_leg : VenueCloseInputs :=
  { lighter_position := some 1
    lighter_best_bid := some 99
    lighter_best_ask := some 101
    grvt_position := none
    grvt_best_bid := none
    grvt_best_ask := none }

/-- Close-flow market inputs with no open position on either venue. -/
def specimen_close_inputs_empty : VenueCloseInputs :=
  { lighter_position := none
    lighter_best_bid := none
    lighter_best_ask := none
    grvt_position := none
    grvt_best_bid := none
    grvt_best_ask := none }

/-- A pending, enabled liquidation-guard task with threshold 50%. -/
def specimen_guard_task : RiskTask :=
  { task_type := RiskTaskType.liquidation_guard
    enabled := true
    threshold_pct := some 50
    triggered_at := none
    status := RiskTaskStatus.pending
    trigger_reason := none
    deleted_at := none }

/-- A concrete open request used to exercise the open flow. -/
def specimen_open_request : ArbOpenRequest :=
  { symbol := "BTC"
    left_venue := "lighter"
    right_venue := "grvt"
    left_side := "buy"
    right_side := "sell"
    left_price := 100
    right_price := 101
    left_size := 2
    right_size := 2 }

/-! ## Theorems -/

/-- The reduce-only close flow short-circuits on an inactive position. -/
theorem close_flow_inactive (pos : ArbPosition) (snapshotError : Option String)
    (inputs : VenueCloseInputs) (outcome : String → Option String) (now : ℚ)
    (h : pos.status = ArbPositionStatus.closed ∨ pos.status = ArbPositionStatus.failed) :
    close_position_with_reduce_only_orders pos snapshotError inputs outcome now
      = ({ failed_reasons := ["position inactive"], closed := false }, pos, []) := by
  unfold close_position_with_reduce_only_orders
  rw [if_pos h]

/-- Claim C1 counterexample: the manual close endpoint
(`ArbService.close_position`) changes the status of a position that is
already in the terminal status `failed` — it becomes `closed`.  The claimed
"no subsequent operation (the manual close endpoint, ...) ever changes its
status again" is therefore false on the code. -/
theorem C1_manual_close_counterexample :
    specimen_failed_position.status = ArbPositionStatus.failed ∧
    (ArbService.close_position specimen_failed_position 5).1.status
      = ArbPositionStatus.closed ∧
    ArbPositionStatus.closed ≠ ArbPositionStatus.failed := by
  refine ⟨rfl, rfl, by simp⟩

/-- Claim C1 (amended): every ArbPosition status is one of the 7 enum values;
once the status of a position is `closed` or `failed`, the reduce-only close flow
(the path used by the guard loops and the guard close flow) leaves the stored
position unchanged, and the candidate filter of the guard workers never selects
such a position.  The manual close endpoint is excluded from the amended
invariant: it unconditionally rewrites the status to `closed`. -/
theorem C1_status_machine :
    (∀ s : ArbPositionStatus,
      s = ArbPositionStatus.idle ∨ s = ArbPositionStatus.pending ∨
      s = ArbPositionStatus.partially_filled ∨ s = ArbPositionStatus.hedged ∨
      s = ArbPositionStatus.exiting ∨ s = ArbPositionStatus.closed ∨
      s = ArbPositionStatus.failed) ∧
    (∀ (pos : ArbPosition) (snapshotError : Option String)
        (inputs : VenueCloseInputs) (outcome : String → Option String) (now : ℚ),
      pos.status = ArbPositionStatus.closed ∨ pos.status = ArbPositionStatus.failed →
      (close_position_with_reduce_only_orders pos snapshotError inputs outcome now).2.1
        = pos) ∧
    (∀ pos : ArbPosition, guard_selects_position pos →
      pos.status ≠ ArbPositionStatus.closed ∧ pos.status ≠ ArbPositionStatus.failed) := by
  refine ⟨fun s => by cases s <;> simp, ?_, ?_⟩
  · intro pos snapshotError inputs outcome now h
    rw [close_flow_inactive pos snapshotError inputs outcome now h]
  · intro pos h
    obtain ⟨-, hmem⟩ := h
    simp only [guard_active_statuses, List.mem_cons, List.not_mem_nil,
      or_false] at hmem
    rcases hmem with h1 | h1 | h1 <;> simp [h1]

/-- Witness for C1_status_machine: its hypotheses discharged at a concrete
closed position. -/
theorem C1_status_machine_witness :
    (close_position_with_reduce_only_orders specimen_closed_position none
        specimen_close_inputs_empty (fun _ => none) 7).2.1
      = specimen_closed_position :=
  C1_status_machine.2.1 specimen_closed_position none specimen_close_inputs_empty
    (fun _ => none) 7 (Or.inl rfl)

/-- Claim C4 counterexample: a second close of an already-closed position
through the manual close endpoint is not a no-op — it rewrites `closed_at`
and `updated_at` and reports "closed" rather than "position inactive". -/
theorem C4_manual_second_close_counterexample :
    specimen_closed_position.status = ArbPositionStatus.closed ∧
    (ArbService.close_position specimen_closed_position 2).1.closed_at = some 2 ∧
    (ArbService.close_position specimen_closed_position 2).1
      ≠ specimen_closed_position ∧
    (ArbService.close_position specimen_closed_position 2).2
      ≠ "position inactive" := by
  refine ⟨rfl, rfl, ?_, by simp [ArbService.close_position, ArbPositionStatus.value]⟩
  intro h
  have h2 := congrArg ArbPosition.closed_at h
  simp [ArbService.close_position, specimen_closed_position,
    specimen_failed_position] at h2

/-- Claim C4 (amended): closing an already-closed position a second time
through the reduce-only close flow is a no-op: it reports "position
inactive", inserts no OrderLog rows, and leaves the stored position
unchanged.  (The manual close endpoint, by contrast, re-commits the position
with refreshed timestamps.) -/
theorem C4_second_close_noop :
    ∀ (pos : ArbPosition) (snapshotError : Option String)
      (inputs : VenueCloseInputs) (outcome : String → Option String) (now : ℚ),
      pos.status = ArbPositionStatus.closed →
      close_position_with_reduce_only_orders pos snapshotError inputs outcome now
        = ({ failed_reasons := ["position inactive"], closed := false }, pos, []) :=
  fun pos snapshotError inputs outcome now h =>
    close_flow_inactive pos snapshotError inputs outcome now (Or.inl h)

/-- Witness for C4_second_close_noop at a concrete closed position with a
live one-leg book. -/
theorem C4_second_close_noop_witness :
    close_position_with_reduce_only_orders specimen_closed_position none
        specimen_close_inputs_one_leg (fun _ => none) 9
      = ({ failed_reasons := ["position inactive"], closed := false },
          specimen_closed_position, []) :=
  C4_second_close_noop specimen_closed_position none specimen_close_inputs_one_leg
    (fun _ => none) 9 rfl

/-- Claim C2: in the open flow, for every combination of the two leg
outcomes, exactly one OrderLog row is appended per leg — `accepted` with the
full request dump and the response dump on success, `failed` with the error
string in the response payload on error — and the final committed status is
`pending` when both legs succeed, `partially_filled` when exactly one does,
`failed` when neither does. -/
theorem C2_open_flow :
    ∀ (req : ArbOpenRequest) (pos : ArbPosition) (leftDump rightDump : String)
      (leftOutcome rightOutcome : LegOutcome) (now : ℚ),
      (open_arb_position req pos leftDump rightDump leftOutcome rightOutcome
        now).2.length = 2 ∧
      (∀ resp, leftOutcome = Except.ok resp →
        (open_arb_position req pos leftDump rightDump leftOutcome rightOutcome
          now).2[0]? = some
            { venue := req.left_venue, side := req.left_side,
              price := req.left_price, size := req.left_size,
              reduce_only := false,
              request_payload := RequestPayload.fullRequest leftDump,
              response_payload := ResponsePayload.venueResponse resp,
              status := OrderStatus.accepted }) ∧
      (∀ e, leftOutcome = Except.error e →
        (open_arb_position req pos leftDump rightDump leftOutcome rightOutcome
          now).2[0]? = some
            { venue := req.left_venue, side := req.left_side,
              price := req.left_price, size := req.left_size,
              reduce_only := false,
              request_payload := RequestPayload.minimalRequest req.symbol
                req.left_side req.left_size req.left_price,
              response_payload := ResponsePayload.errorMessage e,
              status := OrderStatus.failed }) ∧
      (∀ resp, rightOutcome = Except.ok resp →
        (open_arb_position req pos leftDump rightDump leftOutcome rightOutcome
          now).2[1]? = some
            { venue := req.right_venue, side := req.right_side,
              price := req.right_price, size := req.right_size,
              reduce_only := false,
              request_payload := RequestPayload.fullRequest rightDump,
              response_payload := ResponsePayload.venueResponse resp,
              status := OrderStatus.accepted }) ∧
      (∀ e, rightOutcome = Except.error e →
        (open_arb_position req pos leftDump rightDump leftOutcome rightOutcome
          now).2[1]? = some
            { venue := req.right_venue, side := req.right_side,
              price := req.right_price, size := req.right_size,
              reduce_only := false,
              request_payload := RequestPayload.minimalRequest req.symbol
                req.right_side req.right_size req.right_price,
              response_payload := ResponsePayload.errorMessage e,
              status := OrderStatus.failed }) ∧
      ((open_arb_position req pos leftDump rightDump leftOutcome rightOutcome
          now).1.status =
        match leftOutcome, rightOutcome with
        | Except.ok _, Except.ok _ => ArbPositionStatus.pending
        | Except.error _, Except.error _ => ArbPositionStatus.failed
        | _, _ => ArbPositionStatus.partially_filled) := by
  intro req pos leftDump rightDump leftOutcome rightOutcome now
  refine ⟨?_, ?_, ?_, ?_, ?_, ?_⟩ <;>
    cases leftOutcome <;> cases rightOutcome <;>
      simp [open_arb_position, place_for_venue]

/-- Witness for C2_open_flow at the concrete scenario of the claim: leg A
succeeds, leg B raises "boom" — the committed status is partially_filled,
with the accepted left row and the failed right row capturing the error. -/
theorem C2_open_flow_witness :
    (open_arb_position specimen_open_request specimen_active_position "ldump"
        "rdump" (Except.ok "lresp") (Except.error "boom") 3).2[0]? = some
          { venue := "lighter", side := "buy", price := 100, size := 2,
            reduce_only := false,
            request_payload := RequestPayload.fullRequest "ldump",
            response_payload := ResponsePayload.venueResponse "lresp",
            status := OrderStatus.accepted } ∧
    (open_arb_position specimen_open_request specimen_active_position "ldump"
        "rdump" (Except.ok "lresp") (Except.error "boom") 3).2[1]? = some
          { venue := "grvt", side := "sell", price := 101, size := 2,
            reduce_only := false,
            request_payload := RequestPayload.minimalRequest "BTC" "sell" 2 101,
            response_payload := ResponsePayload.errorMessage "boom",
            status := OrderStatus.failed } ∧
    (open_arb_position specimen_open_request specimen_active_position "ldump"
        "rdump" (Except.ok "lresp") (Except.error "boom") 3).1.status
      = ArbPositionStatus.partially_filled ∧
    (open_arb_position specimen_open_request specimen_active_position "ldump"
        "rdump" (Except.ok "lresp") (Except.error "boom") 3).2.length = 2 := by
  have h := C2_open_flow specimen_open_request specimen_active_position "ldump"
    "rdump" (Except.ok "lresp") (Except.error "boom") 3
  exact ⟨h.2.1 "lresp" rfl, h.2.2.2.2.1 "boom" rfl, h.2.2.2.2.2, h.1⟩

/-- The reduce-only close flow on an active position with at least one
submittable leg reduces to the failed-reasons branch. -/
theorem close_flow_active (pos : ArbPosition) (inputs : VenueCloseInputs)
    (outcome : String → Option String) (now : ℚ)
    (h1 : ¬(pos.status = ArbPositionStatus.closed ∨
      pos.status = ArbPositionStatus.failed))
    (h2 : build_close_orders inputs ≠ []) :
    close_position_with_reduce_only_orders pos none inputs outcome now =
      if close_failed_reasons inputs outcome ≠ [] then
        ({ failed_reasons := close_failed_reasons inputs outcome, closed := false },
          pos, [])
      else
        ({ failed_reasons := [], closed := true },
          { pos with status := ArbPositionStatus.exiting, updated_at := now }, []) := by
  unfold close_position_with_reduce_only_orders
  rw [if_neg h1, if_neg h2, if_neg h1]

/-- The collected failure list of the flow is empty exactly when no submitted leg
fails with a non-empty error string. -/
theorem close_failed_reasons_eq_nil (inputs : VenueCloseInputs)
    (outcome : String → Option String) :
    close_failed_reasons inputs outcome = [] ↔
      ∀ o ∈ build_close_orders inputs, ∀ e, outcome o.venue = some e → e = "" := by
  unfold close_failed_reasons
  rw [List.filterMap_eq_nil_iff]
  constructor
  · intro h o ho e he
    have h2 := h o ho
    rw [he] at h2
    by_contra hne
    simp [hne] at h2
  · intro h o ho
    cases houtcome : outcome o.venue with
    | none => rfl
    | some err =>
        have herr := h o ho err houtcome
        simp [herr]

/-- Claim C3 counterexample: with one submittable leg (the lighter long) and
the venue raising an exception whose `str(exc)` is the empty string, the flow
collects no failure reason (`if not ok and err` drops empty errors), reports
success, and moves the position to `exiting` — contradicting "if at least one
submitted leg fails, the result is a reported failure ... and the position
status is unchanged". -/
theorem C3_empty_error_counterexample :
    (build_close_orders specimen_close_inputs_one_leg).length = 1 ∧
    (close_position_with_reduce_only_orders specimen_active_position none
        specimen_close_inputs_one_leg (fun _ => some "") 9).1
      = { failed_reasons := [], closed := true } ∧
    (close_position_with_reduce_only_orders specimen_active_position none
        specimen_close_inputs_one_leg (fun _ => some "") 9).2.1.status
      = ArbPositionStatus.exiting := by
  have hnil : close_failed_reasons specimen_close_inputs_one_leg
      (fun _ => some "") = [] :=
    (close_failed_reasons_eq_nil _ _).mpr
      (fun _ _ e he => (Option.some.inj he).symm)
  refine ⟨by simp [build_close_orders, close_orders_for_venue,
    specimen_close_inputs_one_leg, truthy_price], ?_, ?_⟩ <;>
  · rw [close_flow_active _ _ _ _ (by simp [specimen_active_position,
      specimen_failed_position]) (by simp [build_close_orders,
      close_orders_for_venue, specimen_close_inputs_one_leg, truthy_price])]
    rw [if_neg (not_ne_iff.mpr hnil)]

/-- Claim C3 (amended): zero submittable legs yield the reported failure
"no positions or price" with the position unchanged; a submitted leg failing
with a non-empty error string puts `venue: error` in the reported failure
list, the result is a failure, and the position is unchanged; and on a
non-empty order list the flow reports success exactly when no submitted leg
fails with a non-empty error string, in which case (and only then) the
status moves to `exiting`. -/
theorem C3_close_flow :
    (∀ (pos : ArbPosition) (inputs : VenueCloseInputs)
        (outcome : String → Option String) (now : ℚ),
      ¬(pos.status = ArbPositionStatus.closed ∨
        pos.status = ArbPositionStatus.failed) →
      build_close_orders inputs = [] →
      close_position_with_reduce_only_orders pos none inputs outcome now
        = ({ failed_reasons := ["no positions or price"], closed := false },
            pos, [])) ∧
    (∀ (pos : ArbPosition) (inputs : VenueCloseInputs)
        (outcome : String → Option String) (now : ℚ) (o : CloseOrder) (e : String),
      ¬(pos.status = ArbPositionStatus.closed ∨
        pos.status = ArbPositionStatus.failed) →
      o ∈ build_close_orders inputs → outcome o.venue = some e → e ≠ "" →
      (o.venue ++ ": " ++ e) ∈ (close_position_with_reduce_only_orders pos none
        inputs outcome now).1.failed_reasons ∧
      (close_position_with_reduce_only_orders pos none inputs outcome now).1.closed
        = false ∧
      (close_position_with_reduce_only_orders pos none inputs outcome now).2.1
        = pos) ∧
    (∀ (pos : ArbPosition) (inputs : VenueCloseInputs)
        (outcome : String → Option String) (now : ℚ),
      ¬(pos.status = ArbPositionStatus.closed ∨
        pos.status = ArbPositionStatus.failed) →
      build_close_orders inputs ≠ [] →
      ((close_position_with_reduce_only_orders pos none inputs outcome now).1.closed
          = true ↔
        ∀ o ∈ build_close_orders inputs, ∀ e, outcome o.venue = some e → e = "") ∧
      ((close_position_with_reduce_only_orders pos none inputs outcome now).1.closed
          = true →
        (close_position_with_reduce_only_orders pos none inputs outcome
          now).2.1.status = ArbPositionStatus.exiting) ∧
      ((close_position_with_reduce_only_orders pos none inputs outcome now).1.closed
          = false →
        (close_position_with_reduce_only_orders pos none inputs outcome now).2.1
          = pos)) := by
  refine ⟨?_, ?_, ?_⟩
  · intro pos inputs outcome now h1 h2
    unfold close_position_with_reduce_only_orders
    rw [if_neg h1, if_pos h2]
  · intro pos inputs outcome now o e h1 ho houtcome he
    have hmem : (o.venue ++ ": " ++ e) ∈ close_failed_reasons inputs outcome := by
      unfold close_failed_reasons
      exact List.mem_filterMap.mpr ⟨o, ho, by simp [houtcome, he]⟩
    have hne : close_failed_reasons inputs outcome ≠ [] :=
      List.ne_nil_of_mem hmem
    rw [close_flow_active pos inputs outcome now h1 (List.ne_nil_of_mem ho),
      if_pos hne]
    exact ⟨hmem, rfl, rfl⟩
  · intro pos inputs outcome now h1 h2
    rw [close_flow_active pos inputs outcome now h1 h2]
    by_cases hf : close_failed_reasons inputs outcome = []
    · rw [if_neg (not_ne_iff.mpr hf)]
      exact ⟨iff_of_true rfl ((close_failed_reasons_eq_nil inputs outcome).mp hf),
        fun _ => rfl, by simp⟩
    · rw [if_pos hf]
      refine ⟨iff_of_false (by simp) ?_, by simp, fun _ => rfl⟩
      intro hall
      exact hf ((close_failed_reasons_eq_nil inputs outcome).mpr hall)

/-- Witness for C3_close_flow: its hypotheses discharged at concrete inputs —
no submittable legs gives the "no positions or price" failure, and a lighter
leg failing with "boom" gives the listed venue error with the position
unchanged. -/
theorem C3_close_flow_witness :
    close_position_with_reduce_only_orders specimen_active_position none
        specimen_close_inputs_empty (fun _ => some "boom") 9
      = ({ failed_reasons := ["no positions or price"], closed := false },
          specimen_active_position, []) ∧
    ("lighter" ++ ": " ++ "boom") ∈ (close_position_with_reduce_only_orders
        specimen_active_position none specimen_close_inputs_one_leg
        (fun _ => some "boom") 9).1.failed_reasons ∧
    (close_position_with_reduce_only_orders specimen_active_position none
        specimen_close_inputs_one_leg (fun _ => some "boom") 9).2.1
      = specimen_active_position := by
  have hactive : ¬(specimen_active_position.status = ArbPositionStatus.closed ∨
      specimen_active_position.status = ArbPositionStatus.failed) := by
    simp [specimen_active_position, specimen_failed_position]
  have hmem : ({ venue := "lighter", side := "sell", price := 101, size := 1 }
      : CloseOrder) ∈ build_close_orders specimen_close_inputs_one_leg := by
    simp [build_close_orders, close_orders_for_venue,
      specimen_close_inputs_one_leg, truthy_price]
  have h2 := C3_close_flow.2.1 specimen_active_position
    specimen_close_inputs_one_leg (fun _ => some "boom") 9
    { venue := "lighter", side := "sell", price := 101, size := 1 } "boom"
    hactive hmem rfl (by simp)
  exact ⟨C3_close_flow.1 specimen_active_position specimen_close_inputs_empty
    (fun _ => some "boom") 9 hactive (by simp [build_close_orders,
      close_orders_for_venue, specimen_close_inputs_empty]),
    h2.1, h2.2.2⟩

/-- Claim C5: the liquidation guard triggers the close flow exactly when
`|sum of unrealized PnL| / notional × 100 ≥ threshold_pct` (default 50) for
a position with positive notional; at notional 10000, unrealized PnL
−3000 + −2200 = −5200 and threshold 50 the ratio is 52 ≥ 50, the close is
triggered, and on success the task becomes `triggered` with a reason
containing "52.00%" and "50.00%". -/
theorem C5_liquidation_guard :
    (∀ (pos : ArbPosition) (task : RiskTask)
        (lighter_unrealized grvt_unrealized : ℚ),
      0 < pos.notional →
      (liquidation_guard_triggers pos task lighter_unrealized grvt_unrealized
          = true ↔
        |lighter_unrealized + grvt_unrealized| / pos.notional * 100
          ≥ liquidation_threshold_pct task.threshold_pct)) ∧
    liquidation_threshold_pct none = 50 ∧
    pnl_ratio_pct (-5200) 10000 = 52 ∧
    liquidation_guard_triggers specimen_position_10000 specimen_guard_task
      (-3000) (-2200) = true ∧
    (liquidation_guard_mark_triggered specimen_guard_task 52 50 99).status
      = RiskTaskStatus.triggered ∧
    (liquidation_guard_mark_triggered specimen_guard_task 52 50 99).trigger_reason
      = some (liquidation_trigger_reason 52 50) ∧
    str_occurs_in "52.00%" (liquidation_trigger_reason 52 50) = true ∧
    str_occurs_in "50.00%" (liquidation_trigger_reason 52 50) = true := by
  have h52 : format_fixed2 52 = "52.00" := by
    have h : round ((52 : ℚ) * 100) = 5200 := by norm_num [round_eq]
    simp only [format_fixed2, h]
    decide
  have h50 : format_fixed2 50 = "50.00" := by
    have h : round ((50 : ℚ) * 100) = 5000 := by norm_num [round_eq]
    simp only [format_fixed2, h]
    decide
  refine ⟨?_, rfl, by norm_num [pnl_ratio_pct], ?_, ?_, ?_, ?_, ?_⟩
  · intro pos task lighter_unrealized grvt_unrealized h
    unfold liquidation_guard_triggers
    rw [if_neg (not_le.mpr h)]
    simp [pnl_ratio_pct, not_lt, ge_iff_le]
  · unfold liquidation_guard_triggers
    rw [if_neg (by norm_num [specimen_position_10000, specimen_active_position,
      specimen_failed_position])]
    simp only [specimen_position_10000, specimen_active_position,
      specimen_failed_position, specimen_guard_task, liquidation_threshold_pct,
      pnl_ratio_pct]
    norm_num
  · simp [liquidation_guard_mark_triggered, specimen_guard_task]
  · simp [liquidation_guard_mark_triggered, specimen_guard_task]
  · simp only [liquidation_trigger_reason, h52, h50]
    decide
  · simp only [liquidation_trigger_reason, h52, h50]
    decide

/-- Witness for C5_liquidation_guard: its positive-notional hypothesis
discharged at the concrete 10000-notional position. -/
theorem C5_liquidation_guard_witness :
    liquidation_guard_triggers specimen_position_10000 specimen_guard_task
        (-3000) (-2200) = true ↔
      |(-3000 : ℚ) + -2200| / specimen_position_10000.notional * 100
        ≥ liquidation_threshold_pct specimen_guard_task.threshold_pct :=
  C5_liquidation_guard.1 specimen_position_10000 specimen_guard_task (-3000)
    (-2200) (by norm_num [specimen_position_10000, specimen_active_position,
      specimen_failed_position])

/-- Claim C6: the funding-settlement guard is active exactly in the last 5
minutes of each clock hour, the funding sign is −1 for buy and +1 for sell,
and the guard invokes the close flow exactly when the expected next-hour PnL
`notional × (sign(leftSide)·leftRate + sign(rightSide)·rightRate)/100` is
at most 0. -/
theorem C6_settlement_guard :
    (∀ minute : Nat, is_settlement_guard_window minute = true ↔ 55 ≤ minute) ∧
    funding_sign_for_side "buy" = -1 ∧
    funding_sign_for_side "sell" = 1 ∧
    (∀ (pos : ArbPosition) (left_rate right_rate : ℚ),
      settlement_guard_invokes_close pos left_rate right_rate = true ↔
        pos.notional * ((funding_sign_for_side pos.left_side * left_rate
          + funding_sign_for_side pos.right_side * right_rate) / 100) ≤ 0) := by
  refine ⟨?_, by decide, by decide, ?_⟩
  · intro minute
    simp [is_settlement_guard_window, SETTLEMENT_GUARD_WINDOW_MINUTES]
  · intro pos left_rate right_rate
    simp [settlement_guard_invokes_close, expected_hourly_pnl, not_lt]

/-- Claim C7 counterexample: with left volume $1,000,000, right volume
$500,000 and threshold $1,200,000 the claim says the symbol is excluded, but
the filter sums the volumes of both venues ($1,500,000 ≥ $1,200,000) and includes
it. -/
theorem C7_volume_counterexample :
    passes_volume 1000000 (some 500000) (volume_cutoff 1200000) = true ∧
    passes_volume 1000000 (some 500000) (volume_cutoff 1200000) ≠ false := by
  constructor <;> norm_num [passes_volume, volume_cutoff]

/-- Claim C7 (amended): the symbol with left volume $1,000,000 and right
volume $500,000 is included at threshold $1,200,000 as well as at
$1,000,000, because the filter compares the sum of the two venue volumes
against the threshold: for positive thresholds a symbol passes exactly when
`leftVolume + rightVolume ≥ threshold`. -/
theorem C7_volume_filter :
    passes_volume 1000000 (some 500000) (volume_cutoff 1200000) = true ∧
    passes_volume 1000000 (some 500000) (volume_cutoff 1000000) = true ∧
    (∀ left_volume right_volume threshold : ℚ, 0 < threshold →
      (passes_volume left_volume (some right_volume) (volume_cutoff threshold)
          = true ↔ threshold ≤ left_volume + right_volume)) := by
  refine ⟨by norm_num [passes_volume, volume_cutoff],
    by norm_num [passes_volume, volume_cutoff], ?_⟩
  intro left_volume right_volume threshold h
  have hcut : volume_cutoff threshold = threshold :=
    max_eq_left h.le
  unfold passes_volume
  rw [hcut, if_neg (not_le.mpr h)]
  simp [ge_iff_le]

/-- Witness for C7_volume_filter at the concrete volumes of the claim. -/
theorem C7_volume_filter_witness :
    passes_volume 1000000 (some 500000) (volume_cutoff 1200000) = true ↔
      (1200000 : ℚ) ≤ 1000000 + 500000 :=
  C7_volume_filter.2.2 1000000 500000 1200000 (by norm_num)

/-- Claim C8 counterexample: for two samples 8 hours apart whose first value
is 0, the Python expression `(left_ewma or point.left)` treats the running
EWMA 0.0 as falsy and substitutes the new sample, so the smoothed result is
1 rather than the claimed `sample2·(1−0.5^0.5) + sample1·0.5^0.5 = 1−0.5^0.5`. -/
theorem C8_ewma_counterexample :
    ewma_series [((0 : ℝ), 0), (28800000, 1)] = some 1 ∧
    (1 : ℝ) ≠ 1 * (1 - (0.5 : ℝ) ^ (0.5 : ℝ)) + 0 * (0.5 : ℝ) ^ (0.5 : ℝ) := by
  constructor
  · simp only [ewma_series, List.foldl, ewma_step, py_or, if_pos rfl,
      Option.map_some]
    norm_num
  · intro h
    have hd : 0 < (0.5 : ℝ) ^ (0.5 : ℝ) :=
      Real.rpow_pos_of_pos (by norm_num) _
    nlinarith [h]

/-- Claim C8 (amended): for exactly two samples with a nonzero first value,
the EWMA uses decay `0.5 ^ (Δh / 16)` with Δh the actual elapsed hours, and
the smoothed result is `sample2·(1−decay) + sample1·decay`; at 8 hours apart
the decay is `0.5^0.5`. -/
theorem C8_ewma :
    (∀ s1 s2 t1 t2 : ℝ, t1 ≤ t2 → s1 ≠ 0 →
      ewma_series [(t1, s1), (t2, s2)] =
        some (s2 * (1 - (0.5 : ℝ) ^ (((t2 - t1) / MS_PER_HOUR)
              / PREDICTION_HALF_LIFE_HOURS))
          + s1 * (0.5 : ℝ) ^ (((t2 - t1) / MS_PER_HOUR)
              / PREDICTION_HALF_LIFE_HOURS))) ∧
    (∀ s1 s2 t1 t2 : ℝ, t2 - t1 = 28800000 → s1 ≠ 0 →
      ewma_series [(t1, s1), (t2, s2)] =
        some (s2 * (1 - (0.5 : ℝ) ^ (0.5 : ℝ))
          + s1 * (0.5 : ℝ) ^ (0.5 : ℝ))) := by
  have hgen : ∀ s1 s2 t1 t2 : ℝ, t1 ≤ t2 → s1 ≠ 0 →
      ewma_series [(t1, s1), (t2, s2)] =
        some (s2 * (1 - (0.5 : ℝ) ^ (((t2 - t1) / MS_PER_HOUR)
              / PREDICTION_HALF_LIFE_HOURS))
          + s1 * (0.5 : ℝ) ^ (((t2 - t1) / MS_PER_HOUR)
              / PREDICTION_HALF_LIFE_HOURS)) := by
    intro s1 s2 t1 t2 ht hs1
    have hmax : max ((t2 - t1) / MS_PER_HOUR) 0 = (t2 - t1) / MS_PER_HOUR :=
      max_eq_left (div_nonneg (sub_nonneg.mpr ht) (by norm_num [MS_PER_HOUR]))
    simp only [ewma_series, List.foldl, ewma_step, py_or, if_neg hs1, hmax]
    rfl
  refine ⟨hgen, ?_⟩
  intro s1 s2 t1 t2 ht hs1
  have ht2 : t1 ≤ t2 := by nlinarith [ht]
  have hdecay : ((t2 - t1) / MS_PER_HOUR) / PREDICTION_HALF_LIFE_HOURS
      = (0.5 : ℝ) := by
    rw [ht]
    norm_num [MS_PER_HOUR, PREDICTION_HALF_LIFE_HOURS]
  rw [hgen s1 s2 t1 t2 ht2 hs1, hdecay]

/-- Witness for C8_ewma: samples 1 and 2 exactly 8 hours apart. -/
theorem C8_ewma_witness :
    ewma_series [((0 : ℝ), 1), (28800000, 2)] =
      some (2 * (1 - (0.5 : ℝ) ^ (0.5 : ℝ)) + 1 * (0.5 : ℝ) ^ (0.5 : ℝ)) :=
  C8_ewma.2 1 2 0 28800000 (by norm_num) (by norm_num)

/-- The level comparison is transitive. -/
theorem price_le_trans {P : Type} (val : P → ℚ) (reverse : Bool) :
    ∀ a b c : RawLevel P, price_le val reverse a b = true →
      price_le val reverse b c = true → price_le val reverse a c = true := by
  intro a b c hab hbc
  cases reverse <;> simp [price_le] at hab hbc ⊢
  · exact le_trans hab hbc
  · exact le_trans hbc hab

/-- The level comparison is total. -/
theorem price_le_total {P : Type} (val : P → ℚ) (reverse : Bool) :
    ∀ a b : RawLevel P,
      (price_le val reverse a b || price_le val reverse b a) = true := by
  intro a b
  cases reverse <;> simp [price_le] <;> exact le_total _ _

/-- The cumulative loop attaches correct running totals from any start. -/
theorem accumulate_levels_cumulative :
    ∀ (xs : List (ℚ × ℚ)) (c : ℚ), totals_cumulative c (accumulate_levels c xs)
  | [], _ => trivial
  | (p, s) :: rest, c => by
      by_cases h : p ≤ 0 ∨ s ≤ 0
      · rw [show accumulate_levels c ((p, s) :: rest) = accumulate_levels c rest
          from by simp [accumulate_levels, h]]
        exact accumulate_levels_cumulative rest c
      · rw [show accumulate_levels c ((p, s) :: rest)
            = { price := p, size := s, total := c + s }
                :: accumulate_levels (c + s) rest
          from by simp [accumulate_levels, h]]
        exact ⟨rfl, accumulate_levels_cumulative rest (c + s)⟩

/-- Claim C9: on an incremental order-book message every level is upserted
(size replaced, non-positive sizes dropped), the side is re-sorted (bids
descending, asks ascending by parsed price), the stored state is truncated
to three times the requested depth, and emitted levels carry top-down
cumulative sizes; concretely, from snapshot bids [(100,5)] an incremental
update setting (100,0) and adding (99,2) leaves exactly the bid level
(99,2), emitted with cumulative total 2. -/
theorem C9_book_merge :
    (∀ (P : Type) [DecidableEq P] (val : P → ℚ) (reverse : Bool)
        (depth_limit : Nat) (existing updates : List (RawLevel P)),
      (∀ e ∈ apply_lighter_side_updates val reverse depth_limit existing
          updates, 0 < e.size) ∧
      (apply_lighter_side_updates val reverse depth_limit existing
          updates).Pairwise (fun a b =>
        if reverse then val b.price ≤ val a.price
        else val a.price ≤ val b.price) ∧
      (apply_lighter_side_updates val reverse depth_limit existing
          updates).length ≤ depth_limit * 3) ∧
    (∀ (P : Type) [DecidableEq P] (val : P → ℚ) (raw : List (RawLevel P))
        (depth : Nat) (reverse : Bool),
      totals_cumulative 0 (build_lighter_side val raw depth reverse)) ∧
    (apply_lighter_side_updates (id : ℚ → ℚ) true 1
        [{ price := 100, size := 5 }]
        [{ price := 100, size := 0 }, { price := 99, size := 2 }]
      = [{ price := 99, size := 2 }]) ∧
    (build_lighter_side (id : ℚ → ℚ) [{ price := (99 : ℚ), size := 2 }] 1 true
      = [{ price := 99, size := 2, total := 2 }]) := by
  refine ⟨?_, ?_, ?_, ?_⟩
  · intro P instP val reverse depth_limit existing updates
    refine ⟨?_, ?_, ?_⟩
    · intro e he
      simp only [apply_lighter_side_updates] at he
      have h2 := (List.mergeSort_perm _ (price_le val reverse)).mem_iff.mp
        (List.mem_of_mem_take he)
      have h3 := List.mem_filter.mp h2
      simpa using h3.2
    · simp only [apply_lighter_side_updates]
      have hsorted := List.sorted_mergeSort
        (price_le_trans val reverse) (price_le_total val reverse)
        (((updates.foldl apply_new_order existing).filter
          fun e => decide (e.size > 0)))
      refine (List.Pairwise.sublist (List.take_sublist _ _) hsorted).imp ?_
      intro a b h
      cases reverse <;> simpa [price_le] using h
    · simp only [apply_lighter_side_updates]
      exact List.length_take_le _ _
  · intro P instP val raw depth reverse
    unfold build_lighter_side
    exact accumulate_levels_cumulative _ 0
  · norm_num [apply_lighter_side_updates, apply_new_order, upsert_level,
      List.mergeSort_singleton]
  · norm_num [build_lighter_side, accumulate_levels, List.mergeSort_singleton]

/-- Witness for C9_book_merge: its membership hypothesis discharged at the
concrete merged bid level (99,2). -/
theorem C9_book_merge_witness :
    0 < ({ price := (99 : ℚ), size := 2 } : RawLevel ℚ).size :=
  (C9_book_merge.1 ℚ id true 1 [{ price := 100, size := 5 }]
      [{ price := 100, size := 0 }, { price := 99, size := 2 }]).1
    { price := 99, size := 2 }
    (by rw [C9_book_merge.2.2.1]; simp)

/-- Folding `min` over a constant population returns the constant. -/
theorem foldl_min_all_eq (p : ℝ) (ps : List ℝ) (h : ∀ x ∈ ps, x = p) :
    ps.foldl min p = p := by
  induction ps with
  | nil => rfl
  | cons hd tl ih =>
      have hhd : hd = p := h hd (by simp)
      rw [List.foldl_cons, hhd, min_self]
      exact ih fun x hx => h x (by simp [hx])

/-- Folding `max` over a constant population returns the constant. -/
theorem foldl_max_all_eq (p : ℝ) (ps : List ℝ) (h : ∀ x ∈ ps, x = p) :
    ps.foldl max p = p := by
  induction ps with
  | nil => rfl
  | cons hd tl ih =>
      have hhd : hd = p := h hd (by simp)
      rw [List.foldl_cons, hhd, max_self]
      exact ih fun x hx => h x (by simp [hx])

/-- Rounding to four decimals stays within [0, 90] for x in [0, 90]. -/
theorem round4_bounds (x : ℝ) (h0 : 0 ≤ x) (h90 : x ≤ 90) :
    0 ≤ round4 x ∧ round4 x ≤ 90 := by
  unfold round4
  constructor
  · have hz : (0 : ℤ) ≤ round (x * 10000) := by
      rw [round_eq]
      exact Int.le_floor.mpr (by push_cast; nlinarith)
    exact div_nonneg (by exact_mod_cast hz) (by norm_num)
  · have hle : round (x * 10000) ≤ 900000 := by
      rw [round_eq]
      have h1 : ⌊x * 10000 + 1 / 2⌋ ≤ ⌊(900000 : ℝ) + 1 / 2⌋ :=
        Int.floor_mono (by nlinarith)
      have h2 : ⌊(900000 : ℝ) + 1 / 2⌋ = 900000 := by norm_num
      omega
    rw [div_le_iff₀ (by norm_num : (0 : ℝ) < 10000)]
    calc ((round (x * 10000) : ℤ) : ℝ) ≤ 900000 := by exact_mod_cast hle
    _ = 90 * 10000 := by norm_num

/-- Every min-max normalized factor lies in [0, 1]. -/
theorem min_max_normalize_bounds (value : ℝ) (population : List ℝ) :
    0 ≤ min_max_normalize value population ∧
      min_max_normalize value population ≤ 1 := by
  match population with
  | [] => simp [min_max_normalize]
  | p :: ps =>
      simp only [min_max_normalize]
      split
      · norm_num
      · exact ⟨le_min (le_max_right _ _) zero_le_one, min_le_right _ _⟩

/-- The spread acceptance score lies in [0, 1]. -/
theorem spread_acceptance_bounds (s : ℝ) :
    0 ≤ compute_spread_acceptance_score s ∧
      compute_spread_acceptance_score s ≤ 1 := by
  unfold compute_spread_acceptance_score
  exact ⟨le_min (le_max_right _ _) zero_le_one, min_le_right _ _⟩

/-- Claim C10: every recommendation_score lies in [0, 90]: every min-max
normalized factor is clamped to [0, 1] (0.5 on a degenerate population), the
spread acceptance factor is clamped to [0, 1], the core weights sum to 0.90,
and therefore the final (rounded) score of every entry is at most 90. -/
theorem C10_score_bounds :
    (∀ (value : ℝ) (population : List ℝ),
      0 ≤ min_max_normalize value population ∧
        min_max_normalize value population ≤ 1) ∧
    (∀ (value p : ℝ) (ps : List ℝ), (∀ x ∈ ps, x = p) →
      min_max_normalize value (p :: ps) = 0.5) ∧
    (∀ s : ℝ, 0 ≤ compute_spread_acceptance_score s ∧
      compute_spread_acceptance_score s ≤ 1) ∧
    RECOMMENDATION_APR_WEIGHT + RECOMMENDATION_FUNDING_VOLATILITY_WEIGHT
      + RECOMMENDATION_PRICE_VOLATILITY_WEIGHT = 0.9 ∧
    (∀ (annualized_decimal spread_volatility price_volatility
          left_spread_bps right_spread_bps : ℝ)
        (apr_values funding_volatility_values price_volatility_values :
          List ℝ),
      0 ≤ recommendation_score annualized_decimal spread_volatility
          price_volatility left_spread_bps right_spread_bps apr_values
          funding_volatility_values price_volatility_values ∧
      recommendation_score annualized_decimal spread_volatility
          price_volatility left_spread_bps right_spread_bps apr_values
          funding_volatility_values price_volatility_values ≤ 90) := by
  refine ⟨min_max_normalize_bounds, ?_, spread_acceptance_bounds,
    by norm_num [RECOMMENDATION_APR_WEIGHT,
      RECOMMENDATION_FUNDING_VOLATILITY_WEIGHT,
      RECOMMENDATION_PRICE_VOLATILITY_WEIGHT], ?_⟩
  · intro value p ps h
    simp only [min_max_normalize, foldl_min_all_eq p ps h,
      foldl_max_all_eq p ps h]
    rw [if_pos (by norm_num)]
  · intro annualized_decimal spread_volatility price_volatility
      left_spread_bps right_spread_bps apr_values funding_volatility_values
      price_volatility_values
    obtain ⟨ha0, ha1⟩ := min_max_normalize_bounds annualized_decimal apr_values
    obtain ⟨hb0, hb1⟩ := min_max_normalize_bounds spread_volatility
      funding_volatility_values
    obtain ⟨hc0, hc1⟩ := min_max_normalize_bounds price_volatility
      price_volatility_values
    obtain ⟨hl0, hl1⟩ := spread_acceptance_bounds left_spread_bps
    obtain ⟨hr0, hr1⟩ := spread_acceptance_bounds right_spread_bps
    unfold recommendation_score
    set a := min_max_normalize annualized_decimal apr_values with ha
    set b := min_max_normalize spread_volatility funding_volatility_values
      with hb
    set c := min_max_normalize price_volatility price_volatility_values with hc
    set l := compute_spread_acceptance_score left_spread_bps with hl
    set r := compute_spread_acceptance_score right_spread_bps with hr
    unfold RECOMMENDATION_APR_WEIGHT RECOMMENDATION_FUNDING_VOLATILITY_WEIGHT
      RECOMMENDATION_PRICE_VOLATILITY_WEIGHT
    have hcore0 : 0 ≤ 0.70 * a + 0.10 * (1 - b) + 0.10 * (1 - c) := by linarith
    have hcore1 : 0.70 * a + 0.10 * (1 - b) + 0.10 * (1 - c) ≤ 0.9 := by
      linarith
    have hlr0 : 0 ≤ l * r := mul_nonneg hl0 hr0
    have hlr1 : l * r ≤ 1 := mul_le_one₀ hl1 hr0 hr1
    apply round4_bounds
    · exact mul_nonneg (mul_nonneg hcore0 hlr0) (by norm_num)
    · nlinarith [mul_le_mul hcore1 hlr1 hlr0 (by norm_num : (0 : ℝ) ≤ 0.9)]

/-- Witness for C10_score_bounds: the degenerate-population hypothesis
discharged at the constant population [3, 3]. -/
theorem C10_score_bounds_witness :
    min_max_normalize 7 [3, 3] = 0.5 :=
  C10_score_bounds.2.1 7 3 [3] (by intro x hx; simpa using hx)

end ArbTrader
